import Mathlib

/-!
Shallow embedding of the two page-verification scripts `verify_droid.py` and
`verify_example.py`.

Each script registers two passive page observers, then runs
`try: page.goto(url); page.wait_for_selector(sel, timeout=5000)
 except Exception as e: print(f"Error: {e}")
 finally: page.screenshot(path=...)`,
and a `__main__` driver that launches a browser, creates a page, calls the
probe inside `try ... finally: browser.close()`.

The external world (browser, network, page) is modelled by an environment
recording the outcome of each browser-automation call and the console /
page-error events delivered while the page is alive.  Python control flow
(`try`/`except`/`finally`, exception propagation, process exit status) is
embedded explicitly: a run yields the list of browser actions performed, the
list of lines printed to standard output, and the exception (if any) that
escapes to the caller.
-/

/-- Outcome of a single browser-automation call: it either returns normally
or raises an exception carrying a message. -/
inductive StepOutcome where
  | ok
  | err (msg : String)
  deriving DecidableEq

/-- The exception, if any, that a call with this outcome raises. -/
def StepOutcome.exc : StepOutcome → Option String
  | .ok => none
  | .err m => some m

/-- Behaviour of the external world during one probe run: the console
messages and uncaught in-page errors delivered while the page is alive, the
outcome of `page.goto`, the time (in ms) at which the marker text becomes
visible (`none` = never), and the outcome of `page.screenshot`. -/
structure PageEnv where
  consoleEvents : List String
  pageErrors : List String
  gotoOutcome : StepOutcome
  markerVisibleAt : Option Nat
  screenshotOutcome : StepOutcome
  deriving DecidableEq

/-- Browser-automation calls issued by the scripts, in order. -/
inductive BrowserAction where
  | onConsole
  | onPageError
  | goto (url : String)
  | waitForSelector (selector : String) (timeout : Nat)
  | screenshot (path : String) (fullPage : Bool)
  | launch
  | newPage
  | closeBrowser
  deriving DecidableEq

/-- `true` exactly on `screenshot` actions. -/
def BrowserAction.isScreenshot : BrowserAction → Bool
  | .screenshot _ _ => true
  | _ => false

/-- A line printed to standard output.  The observers print
`Console: <text>` and `Page Error: <text>`; the `except` clause prints
`Error: <text>`.  `render` gives the literal text of the line. -/
inductive LogLine where
  | console (text : String)
  | pageError (text : String)
  | error (text : String)
  deriving DecidableEq

/-- The literal text of a log line, as produced by the `print` calls. -/
def LogLine.render : LogLine → String
  | .console t => "Console: " ++ t
  | .pageError t => "Page Error: " ++ t
  | .error t => "Error: " ++ t

/-- `true` exactly on `Error:` lines. -/
def LogLine.isError : LogLine → Bool
  | .error _ => true
  | _ => false

/-- Playwright's `TimeoutError` message for a wait bounded by `timeout` ms. -/
def timeoutMessage (timeout : Nat) : String :=
  "Timeout " ++ toString timeout ++ "ms exceeded."

/-- Semantics of `page.wait_for_selector(sel, timeout=timeout)`: succeeds if
the marker becomes visible within `timeout` ms, otherwise raises a
`TimeoutError` whose message carries the timeout duration. -/
def waitOutcome (markerVisibleAt : Option Nat) (timeout : Nat) : StepOutcome :=
  match markerVisibleAt with
  | some t => if t ≤ timeout then .ok else .err (timeoutMessage timeout)
  | none => .err (timeoutMessage timeout)

/-- Lines printed by the two passive observers for the events delivered
while the page is alive. -/
def eventLines (env : PageEnv) : List LogLine :=
  env.consoleEvents.map LogLine.console ++ env.pageErrors.map LogLine.pageError

/-- Actions performed by the `try` suite (`page.goto`; then, only if the
navigation returned normally, `page.wait_for_selector`). -/
def tryBodyActions (env : PageEnv) (url selector : String) (timeout : Nat) : List BrowserAction :=
  match env.gotoOutcome with
  | .err _ => [.goto url]
  | .ok => [.goto url, .waitForSelector selector timeout]

/-- The exception raised by the `try` suite, if any: a navigation failure,
or, when navigation succeeds, a wait failure. -/
def tryBodyExc (env : PageEnv) (timeout : Nat) : Option String :=
  match env.gotoOutcome with
  | .err m => some m
  | .ok =>
    match waitOutcome env.markerVisibleAt timeout with
    | .ok => none
    | .err m => some m

/-- The line printed by the `except` clause: `Error: <msg>` when the `try`
suite raised an exception with message `msg`, nothing otherwise. -/
def excLine : Option String → List LogLine
  | some m => [LogLine.error m]
  | none => []

/-- Result of one call to the probe routine: the browser actions performed
in order, the log lines printed to standard output, and the exception (if
any) that escapes to the caller. -/
structure RunResult where
  actions : List BrowserAction
  output : List LogLine
  raised : Option String
  deriving DecidableEq

/-- One probe run (`verify_droid` / `verify_example` body).  The two
observers are registered first; the `try` suite navigates and waits; the
`except` clause prints `Error: <msg>` for any exception the suite raised;
the `finally` suite calls `page.screenshot(path=path)` — without the
`full_page` option, so Playwright captures the viewport only
(`full_page=False` is the library default).  Because the screenshot call is
inside `finally` but outside the `try`, an exception it raises escapes to
the caller; the `try`-suite exception never does (it was already handled). -/
def probe (url selector : String) (timeout : Nat) (path : String) (env : PageEnv) : RunResult :=
  { actions := [BrowserAction.onConsole, BrowserAction.onPageError]
      ++ tryBodyActions env url selector timeout
      ++ [BrowserAction.screenshot path false]
    output := eventLines env ++ excLine (tryBodyExc env timeout)
    raised := env.screenshotOutcome.exc }

/-- `verify_droid(page)` from `verify_droid.py`. -/
def verify_droid (env : PageEnv) : RunResult :=
  probe "http://localhost:3000" "text=Droid" 5000 "verification.png" env

/-- `verify_example(page)` from `verify_example.py`. -/
def verify_example (env : PageEnv) : RunResult :=
  probe "http://localhost:5173" "text=Pi Web UI Example" 5000 "example.png" env

/-- Behaviour of the external world for one driver (`__main__`) run: the
outcomes of `p.chromium.launch()`, `browser.new_page()` and
`browser.close()`, plus the page behaviour seen by the probe. -/
structure DriverEnv where
  launchOutcome : StepOutcome
  newPageOutcome : StepOutcome
  page : PageEnv
  closeOutcome : StepOutcome
  deriving DecidableEq

/-- Result of one driver run: actions performed, lines printed, and the
process exit status (0 on normal termination, 1 when an exception reaches
the top level). -/
structure MainResult where
  actions : List BrowserAction
  output : List LogLine
  exitCode : Nat
  deriving DecidableEq

/-- The `__main__` block shared by both scripts:
`browser = p.chromium.launch(); page = browser.new_page();
 try: <probe>(page) finally: browser.close()`.
A failure of `launch` or `new_page` happens before the `try`, so
`browser.close()` is not reached and the exception propagates to the top
level (CPython then exits with status 1).  Otherwise `browser.close()` is
always called; the process exits 0 exactly when neither the probe nor the
close raised. -/
def mainWith (probeFn : PageEnv → RunResult) (env : DriverEnv) : MainResult :=
  match env.launchOutcome with
  | .err _ => { actions := [.launch], output := [], exitCode := 1 }
  | .ok =>
    match env.newPageOutcome with
    | .err _ => { actions := [.launch, .newPage], output := [], exitCode := 1 }
    | .ok =>
      let r := probeFn env.page
      { actions := [BrowserAction.launch, BrowserAction.newPage] ++ r.actions ++ [BrowserAction.closeBrowser]
        output := r.output
        exitCode :=
          match env.closeOutcome, r.raised with
          | .ok, none => 0
          | _, _ => 1 }

/-- The `__main__` block of `verify_droid.py`. -/
def main_droid (env : DriverEnv) : MainResult :=
  mainWith verify_droid env

/-- The `__main__` block of `verify_example.py`. -/
def main_example (env : DriverEnv) : MainResult :=
  mainWith verify_example env

/-! ## Helper lemmas -/

/-- The exception escaping a probe run is exactly the screenshot call's own
exception. -/
lemma probe_raised (url selector : String) (timeout : Nat) (path : String) (env : PageEnv) :
    (probe url selector timeout path env).raised = env.screenshotOutcome.exc := rfl

/-- The last browser action of every probe run is the (viewport) screenshot
to the probe's fixed path. -/
lemma probe_actions_getLast (url selector : String) (timeout : Nat) (path : String)
    (env : PageEnv) :
    (probe url selector timeout path env).actions.getLast? =
      some (.screenshot path false) := by
  cases h : env.gotoOutcome <;> simp [probe, tryBodyActions, h]

/-- The `try` suite performs no screenshot action. -/
lemma tryBodyActions_countP_isScreenshot (env : PageEnv) (url selector : String)
    (timeout : Nat) :
    (tryBodyActions env url selector timeout).countP BrowserAction.isScreenshot = 0 := by
  cases h : env.gotoOutcome <;>
    simp [tryBodyActions, h, List.countP_cons, BrowserAction.isScreenshot]

/-- The observer-forwarded lines contain no `Error:` line. -/
lemma eventLines_countP_isError (env : PageEnv) :
    (eventLines env).countP LogLine.isError = 0 := by
  have h1 : (env.consoleEvents.map LogLine.console).countP LogLine.isError = 0 :=
    List.countP_eq_zero.mpr (by
      intro a ha
      obtain ⟨t, _, rfl⟩ := List.mem_map.mp ha
      simp [LogLine.isError])
  have h2 : (env.pageErrors.map LogLine.pageError).countP LogLine.isError = 0 :=
    List.countP_eq_zero.mpr (by
      intro a ha
      obtain ⟨t, _, rfl⟩ := List.mem_map.mp ha
      simp [LogLine.isError])
  simp [eventLines, List.countP_append, h1, h2]

/-- When navigation succeeds but the marker does not become visible within
the timeout, the `try` suite raises the timeout exception. -/
lemma tryBodyExc_timeout (env : PageEnv) (timeout : Nat) (hg : env.gotoOutcome = .ok)
    (hm : ∀ t, env.markerVisibleAt = some t → timeout < t) :
    tryBodyExc env timeout = some (timeoutMessage timeout) := by
  cases h : env.markerVisibleAt with
  | none => simp [tryBodyExc, hg, waitOutcome, h]
  | some t =>
    have ht := hm t h
    simp [tryBodyExc, hg, waitOutcome, h, Nat.not_le.mpr ht]

/-! ## Concrete environments used in witnesses and counterexamples -/

/-- A fully successful run: navigation succeeds, the marker becomes visible
after 100 ms, the screenshot is written, no events are delivered. -/
def happyEnv : PageEnv :=
  { consoleEvents := []
    pageErrors := []
    gotoOutcome := .ok
    markerVisibleAt := some 100
    screenshotOutcome := .ok }

/-- Navigation and wait succeed but the screenshot call raises. -/
def screenshotFailEnv : PageEnv :=
  { consoleEvents := []
    pageErrors := []
    gotoOutcome := .ok
    markerVisibleAt := some 0
    screenshotOutcome := .err "Unable to write file" }

/-- Nothing listens on the target port: `page.goto` raises. -/
def connRefusedEnv : PageEnv :=
  { consoleEvents := []
    pageErrors := []
    gotoOutcome := .err "net::ERR_CONNECTION_REFUSED"
    markerVisibleAt := none
    screenshotOutcome := .ok }

/-- Navigation succeeds but the marker text never becomes visible. -/
def timeoutEnv : PageEnv :=
  { consoleEvents := []
    pageErrors := []
    gotoOutcome := .ok
    markerVisibleAt := none
    screenshotOutcome := .ok }

/-- A successful run during which one console message and one in-page error
are delivered. -/
def eventsEnv : PageEnv :=
  { consoleEvents := ["boot ok"]
    pageErrors := ["ReferenceError: x is not defined"]
    gotoOutcome := .ok
    markerVisibleAt := some 10
    screenshotOutcome := .ok }

/-- A driver run in which everything succeeds. -/
def happyDriverEnv : DriverEnv :=
  { launchOutcome := .ok
    newPageOutcome := .ok
    page := happyEnv
    closeOutcome := .ok }

/-- A driver run in which `browser.new_page()` raises. -/
def newPageFailDriverEnv : DriverEnv :=
  { launchOutcome := .ok
    newPageOutcome := .err "Target page, context or browser has been closed"
    page := happyEnv
    closeOutcome := .ok }

/-- A driver run in which the probe's screenshot call raises. -/
def screenshotFailDriverEnv : DriverEnv :=
  { launchOutcome := .ok
    newPageOutcome := .ok
    page := screenshotFailEnv
    closeOutcome := .ok }

/-- A driver run in which navigation fails but everything else succeeds. -/
def navFailDriverEnv : DriverEnv :=
  { launchOutcome := .ok
    newPageOutcome := .ok
    page := connRefusedEnv
    closeOutcome := .ok }

/-! ## Claims -/

/-- C1 fails as stated: the probe does not return normally for *every*
outcome of the screenshot capture.  The screenshot call sits in the
`finally` suite, outside the `try`, so when it raises (here: while
navigation and the wait both succeeded) the exception escapes to the
caller. -/
theorem C1_counterexample :
    ¬ (verify_droid screenshotFailEnv).raised = none := by
  simp [verify_droid, probe, screenshotFailEnv, StepOutcome.exc]

/-- C1 (amended): for every outcome of navigation and of the marker wait,
if the screenshot call itself returns normally then the probe routine
returns normally to its caller; a screenshot failure, however, escapes. -/
theorem C1_never_raises (env : PageEnv) (h : env.screenshotOutcome = .ok) :
    (verify_droid env).raised = none ∧ (verify_example env).raised = none := by
  constructor <;> simp [verify_droid, verify_example, probe, h, StepOutcome.exc]

/-- Witness for C1: a run with successful navigation, wait and screenshot
returns normally. -/
theorem C1_never_raises_witness :
    (verify_droid happyEnv).raised = none ∧ (verify_example happyEnv).raised = none :=
  C1_never_raises happyEnv rfl

/-- C2: in every probe run — successful wait, navigation failure, or wait
timeout — exactly one screenshot action is performed, and it is the last
action of the routine. -/
theorem C2_screenshot_once_and_last (env : PageEnv) :
    ((verify_droid env).actions.countP BrowserAction.isScreenshot = 1 ∧
      (verify_droid env).actions.getLast? = some (.screenshot "verification.png" false)) ∧
    ((verify_example env).actions.countP BrowserAction.isScreenshot = 1 ∧
      (verify_example env).actions.getLast? = some (.screenshot "example.png" false)) := by
  refine ⟨⟨?_, probe_actions_getLast _ _ _ _ _⟩, ⟨?_, probe_actions_getLast _ _ _ _ _⟩⟩ <;>
    simp [verify_droid, verify_example, probe, List.countP_append, List.countP_cons,
      tryBodyActions_countP_isScreenshot, BrowserAction.isScreenshot]

/-- C3 fails as stated: the screenshot is not a full-page screenshot.  The
code calls `page.screenshot(path=...)` without `full_page=True`, and
Playwright's default is a viewport-only capture. -/
theorem C3_counterexample :
    ¬ ((verify_droid happyEnv).actions.getLast? =
        some (.screenshot "verification.png" true)) := by
  rw [verify_droid, probe_actions_getLast]
  simp

/-- C3 (amended): in every run the probe's last action captures a
viewport (not full-page) screenshot to the fixed screenshot path. -/
theorem C3_viewport_screenshot (env : PageEnv) :
    (verify_droid env).actions.getLast? = some (.screenshot "verification.png" false) ∧
    (verify_example env).actions.getLast? = some (.screenshot "example.png" false) :=
  ⟨probe_actions_getLast _ _ _ _ _, probe_actions_getLast _ _ _ _ _⟩

/-- C4: every exception raised by navigation or by the marker wait is
caught inside the probe: its message is printed as an `Error: <msg>` line,
execution falls through to the screenshot (still the last action), and the
caught exception is never rethrown — the only exception that can escape the
routine is the screenshot call's own. -/
theorem C4_body_exception_caught (env : PageEnv) (m : String)
    (h : tryBodyExc env 5000 = some m) :
    (LogLine.error m ∈ (verify_droid env).output ∧
      LogLine.error m ∈ (verify_example env).output) ∧
    (LogLine.error m).render = "Error: " ++ m ∧
    ((verify_droid env).actions.getLast? = some (.screenshot "verification.png" false) ∧
      (verify_example env).actions.getLast? = some (.screenshot "example.png" false)) ∧
    ((verify_droid env).raised = env.screenshotOutcome.exc ∧
      (verify_example env).raised = env.screenshotOutcome.exc) := by
  refine ⟨⟨?_, ?_⟩, rfl, ⟨probe_actions_getLast _ _ _ _ _, probe_actions_getLast _ _ _ _ _⟩,
    rfl, rfl⟩ <;>
    simp [verify_droid, verify_example, probe, h, excLine]

/-- Witness for C4: with nothing listening on the port, `page.goto` raises
a connection error, which is logged and swallowed. -/
theorem C4_body_exception_caught_witness :
    LogLine.error "net::ERR_CONNECTION_REFUSED" ∈ (verify_droid connRefusedEnv).output ∧
    (verify_droid connRefusedEnv).raised = none :=
  ⟨(C4_body_exception_caught connRefusedEnv "net::ERR_CONNECTION_REFUSED" rfl).1.1, rfl⟩

/-- C5 fails as stated: `page = browser.new_page()` sits before the
`try ... finally: browser.close()` block, so when page creation raises, the
driver never calls `browser.close()`. -/
theorem C5_counterexample :
    BrowserAction.closeBrowser ∉ (main_droid newPageFailDriverEnv).actions := by
  simp [main_droid, mainWith, newPageFailDriverEnv]

/-- C5 (amended): whenever browser launch and page creation both succeed,
the driver executes `browser.close()` — after a successful probe, after a
probe whose internal failure was caught, and when the probe raises an
unhandled exception; but not when `new_page` itself raises. -/
theorem C5_browser_closed (env : DriverEnv) (h1 : env.launchOutcome = .ok)
    (h2 : env.newPageOutcome = .ok) :
    BrowserAction.closeBrowser ∈ (main_droid env).actions ∧
    BrowserAction.closeBrowser ∈ (main_example env).actions := by
  constructor <;> simp [main_droid, main_example, mainWith, h1, h2]

/-- Witness for C5: the driver closes the browser even when the probe
raises (screenshot failure). -/
theorem C5_browser_closed_witness :
    BrowserAction.closeBrowser ∈ (main_droid screenshotFailDriverEnv).actions ∧
    BrowserAction.closeBrowser ∈ (main_example screenshotFailDriverEnv).actions :=
  C5_browser_closed screenshotFailDriverEnv rfl rfl

/-- C6 fails as stated: when the screenshot capture fails, the exception
escapes the probe, propagates through the driver's `finally`, and the
process exits with a nonzero status. -/
theorem C6_counterexample :
    (main_droid screenshotFailDriverEnv).exitCode ≠ 0 := by
  simp [main_droid, mainWith, verify_droid, probe, screenshotFailDriverEnv,
    screenshotFailEnv, StepOutcome.exc]

/-- C6 (amended): the process exits with status 0 whether or not the marker
text was found and whether or not navigation or the wait failed, provided
browser launch, page creation, the screenshot capture and the browser close
all succeed; a screenshot failure (or a launch / page-creation / close
failure) makes the process exit with a nonzero status. -/
theorem C6_exit_zero (env : DriverEnv) (h1 : env.launchOutcome = .ok)
    (h2 : env.newPageOutcome = .ok) (h3 : env.page.screenshotOutcome = .ok)
    (h4 : env.closeOutcome = .ok) :
    (main_droid env).exitCode = 0 ∧ (main_example env).exitCode = 0 := by
  constructor <;>
    simp [main_droid, main_example, mainWith, verify_droid, verify_example, probe,
      h1, h2, h3, h4, StepOutcome.exc]

/-- Witness for C6: the process exits 0 even when navigation failed. -/
theorem C6_exit_zero_witness :
    (main_droid navFailDriverEnv).exitCode = 0 ∧
    (main_example navFailDriverEnv).exitCode = 0 :=
  C6_exit_zero navFailDriverEnv rfl rfl rfl rfl

/-- C7: when navigation succeeds but the marker never becomes visible
within the 5000 ms timeout and the screenshot call succeeds, the output
contains exactly one `Error:` line, that line carries the timeout duration
(`Error: Timeout 5000ms exceeded.`), the screenshot is still the last
action performed, and nothing escapes the probe. -/
theorem C7_timeout_logging (env : PageEnv)
    (hg : env.gotoOutcome = .ok)
    (hm : ∀ t, env.markerVisibleAt = some t → 5000 < t)
    (hs : env.screenshotOutcome = .ok) :
    ((verify_droid env).output.countP LogLine.isError = 1 ∧
      LogLine.error (timeoutMessage 5000) ∈ (verify_droid env).output ∧
      (verify_droid env).actions.getLast? = some (.screenshot "verification.png" false) ∧
      (verify_droid env).raised = none) ∧
    ((verify_example env).output.countP LogLine.isError = 1 ∧
      LogLine.error (timeoutMessage 5000) ∈ (verify_example env).output ∧
      (verify_example env).actions.getLast? = some (.screenshot "example.png" false) ∧
      (verify_example env).raised = none) ∧
    (LogLine.error (timeoutMessage 5000)).render = "Error: Timeout 5000ms exceeded." := by
  have hexc := tryBodyExc_timeout env 5000 hg hm
  refine ⟨⟨?_, ?_, probe_actions_getLast _ _ _ _ _, ?_⟩,
    ⟨?_, ?_, probe_actions_getLast _ _ _ _ _, ?_⟩, rfl⟩ <;>
    simp [verify_droid, verify_example, probe, hexc, hs, excLine, StepOutcome.exc,
      List.countP_append, List.countP_cons, eventLines_countP_isError, LogLine.isError]

/-- Witness for C7: a run in which the marker never appears. -/
theorem C7_timeout_logging_witness :
    (verify_droid timeoutEnv).output.countP LogLine.isError = 1 ∧
    LogLine.error (timeoutMessage 5000) ∈ (verify_droid timeoutEnv).output :=
  ⟨(C7_timeout_logging timeoutEnv rfl (fun t ht => by cases ht) rfl).1.1,
    (C7_timeout_logging timeoutEnv rfl (fun t ht => by cases ht) rfl).1.2.1⟩

/-- Every console message delivered during the run is forwarded to the
output by the `page.on("console", ...)` observer. -/
lemma console_mem_probe_output (url selector : String) (timeout : Nat) (path : String)
    (env : PageEnv) (t : String) (ht : t ∈ env.consoleEvents) :
    LogLine.console t ∈ (probe url selector timeout path env).output := by
  show LogLine.console t ∈ eventLines env ++ excLine (tryBodyExc env timeout)
  exact List.mem_append_left _ (List.mem_append_left _ (List.mem_map_of_mem _ ht))

/-- Every uncaught in-page error delivered during the run is forwarded to
the output by the `page.on("pageerror", ...)` observer. -/
lemma pageError_mem_probe_output (url selector : String) (timeout : Nat) (path : String)
    (env : PageEnv) (t : String) (ht : t ∈ env.pageErrors) :
    LogLine.pageError t ∈ (probe url selector timeout path env).output := by
  show LogLine.pageError t ∈ eventLines env ++ excLine (tryBodyExc env timeout)
  exact List.mem_append_left _ (List.mem_append_right _ (List.mem_map_of_mem _ ht))

/-- C8: both observers are registered before navigation (they are the first
two actions, and the navigation is the action right after them), they stay
active for the whole run, every console message `t` is forwarded as the
line `Console: <t>`, and every uncaught in-page error `t` as the line
`Page Error: <t>`. -/
theorem C8_observers (env : PageEnv) :
    ((verify_droid env).actions.take 2 = [BrowserAction.onConsole, BrowserAction.onPageError] ∧
      ((verify_droid env).actions.drop 2).head? = some (.goto "http://localhost:3000") ∧
      (∀ t ∈ env.consoleEvents, LogLine.console t ∈ (verify_droid env).output) ∧
      (∀ t ∈ env.pageErrors, LogLine.pageError t ∈ (verify_droid env).output)) ∧
    ((verify_example env).actions.take 2 = [BrowserAction.onConsole, BrowserAction.onPageError] ∧
      ((verify_example env).actions.drop 2).head? = some (.goto "http://localhost:5173") ∧
      (∀ t ∈ env.consoleEvents, LogLine.console t ∈ (verify_example env).output) ∧
      (∀ t ∈ env.pageErrors, LogLine.pageError t ∈ (verify_example env).output)) ∧
    (∀ t, (LogLine.console t).render = "Console: " ++ t) ∧
    (∀ t, (LogLine.pageError t).render = "Page Error: " ++ t) := by
  refine ⟨⟨?_, ?_, fun t ht => console_mem_probe_output _ _ _ _ _ _ ht,
      fun t ht => pageError_mem_probe_output _ _ _ _ _ _ ht⟩,
    ⟨?_, ?_, fun t ht => console_mem_probe_output _ _ _ _ _ _ ht,
      fun t ht => pageError_mem_probe_output _ _ _ _ _ _ ht⟩,
    fun t => rfl, fun t => rfl⟩
  · simp [verify_droid, probe]
  · cases hg : env.gotoOutcome <;> simp [verify_droid, probe, tryBodyActions, hg]
  · simp [verify_example, probe]
  · cases hg : env.gotoOutcome <;> simp [verify_example, probe, tryBodyActions, hg]

/-- Witness for C8: a delivered console message and in-page error appear in
the output in their rendered forms. -/
theorem C8_observers_witness :
    LogLine.console "boot ok" ∈ (verify_droid eventsEnv).output ∧
    LogLine.pageError "ReferenceError: x is not defined" ∈ (verify_droid eventsEnv).output := by
  obtain ⟨⟨_, _, hc, hp⟩, _, _⟩ := C8_observers eventsEnv
  exact ⟨hc "boot ok" (by simp [eventsEnv]),
    hp "ReferenceError: x is not defined" (by simp [eventsEnv])⟩

/-- C9: the probe is a deterministic function of the page behaviour, so two
successive runs against the same reachable target with identical page
behaviour print structurally identical logs (same lines, hence same count
and prefixes), write to the same fixed screenshot path both times, and
raise nothing. -/
theorem C9_idempotent (env₁ env₂ : PageEnv) (h : env₁ = env₂)
    (_hg : env₁.gotoOutcome = .ok) (hs : env₁.screenshotOutcome = .ok) :
    ((verify_droid env₁).output = (verify_droid env₂).output ∧
      (verify_droid env₁).output.length = (verify_droid env₂).output.length ∧
      (verify_droid env₁).actions = (verify_droid env₂).actions ∧
      (verify_droid env₁).actions.getLast? = some (.screenshot "verification.png" false) ∧
      (verify_droid env₂).actions.getLast? = some (.screenshot "verification.png" false) ∧
      (verify_droid env₁).raised = none ∧ (verify_droid env₂).raised = none) ∧
    ((verify_example env₁).output = (verify_example env₂).output ∧
      (verify_example env₁).output.length = (verify_example env₂).output.length ∧
      (verify_example env₁).actions = (verify_example env₂).actions ∧
      (verify_example env₁).actions.getLast? = some (.screenshot "example.png" false) ∧
      (verify_example env₂).actions.getLast? = some (.screenshot "example.png" false) ∧
      (verify_example env₁).raised = none ∧ (verify_example env₂).raised = none) := by
  subst h
  refine ⟨⟨rfl, rfl, rfl, probe_actions_getLast _ _ _ _ _, probe_actions_getLast _ _ _ _ _,
      ?_, ?_⟩,
    ⟨rfl, rfl, rfl, probe_actions_getLast _ _ _ _ _, probe_actions_getLast _ _ _ _ _,
      ?_, ?_⟩⟩ <;>
    simp [verify_droid, verify_example, probe, hs, StepOutcome.exc]

/-- Witness for C9: two runs against the fully successful environment. -/
theorem C9_idempotent_witness :
    (verify_droid happyEnv).output = (verify_droid happyEnv).output ∧
    (verify_droid happyEnv).actions.getLast? = some (.screenshot "verification.png" false) ∧
    (verify_droid happyEnv).raised = none := by
  obtain ⟨⟨h1, _, _, h4, _, h6, _⟩, _⟩ := C9_idempotent happyEnv happyEnv rfl rfl rfl
  exact ⟨h1, h4, h6⟩

/-- C10: both scripts bound the marker wait by exactly 5000 ms: the wait
action carries timeout 5000, a marker that never appears or appears only
after more than 5000 ms makes the `try` suite raise the timeout exception,
and a marker visible within 5000 ms makes it succeed.  (The spec itself
never states the 5000 ms value.) -/
theorem C10_wait_timeout_5000 (env : PageEnv) (t : Nat) (hg : env.gotoOutcome = .ok) :
    (BrowserAction.waitForSelector "text=Droid" 5000 ∈ (verify_droid env).actions ∧
      BrowserAction.waitForSelector "text=Pi Web UI Example" 5000 ∈
        (verify_example env).actions) ∧
    (env.markerVisibleAt = some t → 5000 < t →
      tryBodyExc env 5000 = some (timeoutMessage 5000)) ∧
    (env.markerVisibleAt = none → tryBodyExc env 5000 = some (timeoutMessage 5000)) ∧
    (∀ u, env.markerVisibleAt = some u → u ≤ 5000 → tryBodyExc env 5000 = none) := by
  refine ⟨⟨?_, ?_⟩, ?_, ?_, ?_⟩
  · simp [verify_droid, probe, tryBodyActions, hg]
  · simp [verify_example, probe, tryBodyActions, hg]
  · intro hm hlt
    have hn : ¬ t ≤ 5000 := by omega
    simp [tryBodyExc, hg, waitOutcome, hm, hn]
  · intro hm
    simp [tryBodyExc, hg, waitOutcome, hm]
  · intro u hm hle
    simp [tryBodyExc, hg, waitOutcome, hm, hle]

/-- Witness for C10: with the marker never appearing, the wait bounded by
5000 ms raises the timeout exception. -/
theorem C10_wait_timeout_5000_witness :
    BrowserAction.waitForSelector "text=Droid" 5000 ∈ (verify_droid timeoutEnv).actions ∧
    tryBodyExc timeoutEnv 5000 = some (timeoutMessage 5000) :=
  ⟨(C10_wait_timeout_5000 timeoutEnv 6000 rfl).1.1,
    (C10_wait_timeout_5000 timeoutEnv 6000 rfl).2.2.1 rfl⟩
